import Mathlib

/-!
Shallow embedding of the real-estate-analyzer pipeline
(`land_price.py`, `edinet_api.py`, `main.py`, `weekly_runner.py`).

Numbers are modelled as rationals (`ℚ`) and integers (`ℤ`); Python dict
fields that may be missing, `None`, or carry a value are modelled by small
sum types.  External calls (HTTP requests, the geocoding service, the
extraction service) are modelled as oracle functions passed explicitly.
-/

namespace RealEstate

/-- Floor of a rational, computably: `Int.fdiv` is floor division and a
rational's denominator is positive. -/
def ratFloor (q : ℚ) : ℤ := q.num.fdiv q.den

/-- Python `round(x)` / `round(x, 0)`: round half to even, as an integer. -/
def pyRound (q : ℚ) : ℤ :=
  let f := ratFloor q
  if q - f < 1/2 then f
  else if (1 : ℚ)/2 < q - f then f + 1
  else if f % 2 = 0 then f else f + 1

/-- Python `int(x)` on a number: truncation toward zero (`Int.tdiv`
truncates toward zero and a rational's denominator is positive). -/
def pyTrunc (q : ℚ) : ℤ := q.num.tdiv q.den

/-- Python `round(x, 2)`: round half to even at two decimal places. -/
def pyRound2dp (q : ℚ) : ℚ := (pyRound (q * 100) : ℚ) / 100

/-- A numeric field of a Python dict: the key may be missing, present with
value `None`, or present with a number. -/
inductive NumField
  | absent
  | null
  | val (q : ℚ)
deriving DecidableEq, Repr

/-- A string field of a Python dict: missing, `None`, or a string. -/
inductive StrField
  | absent
  | null
  | val (s : String)
deriving DecidableEq, Repr

/-- `d.get(key, default)` for a string field with a string default. -/
def StrField.getD (f : StrField) (d : String) : Option String :=
  match f with
  | .absent => some d
  | .null => none
  | .val s => some s

/-- `d.get(key)` (no default) for a string field. -/
def StrField.get (f : StrField) : Option String :=
  match f with
  | .absent => none
  | .null => none
  | .val s => some s

/-- `d.get(key, 0)` for a numeric field. -/
def NumField.getD0 (f : NumField) : Option ℚ :=
  match f with
  | .absent => some 0
  | .null => none
  | .val q => some q

/-- `d.get(key)` (no default) for a numeric field. -/
def NumField.get (f : NumField) : Option ℚ :=
  match f with
  | .absent => none
  | .null => none
  | .val q => some q

/-- Python truthiness of an optional string (`None` and `""` are falsy). -/
def strTruthy : Option String → Bool
  | none => false
  | some s => s ≠ ""

/-- Python truthiness of an optional number (`None` and `0` are falsy). -/
def numTruthy : Option ℚ → Bool
  | none => false
  | some q => q ≠ 0

/-- Python `a or b` on optional strings: `b` when `a` is falsy. -/
def pyOrStr (a b : Option String) : Option String :=
  match a with
  | none => b
  | some s => if s = "" then b else some s

/-! ## land_price.py: LandPriceClient -/

/-- A raw numeric field of a trade record as seen by a Python numeric
conversion: missing, convertible to a number, or raising
`ValueError`/`TypeError` when converted (`bad`). -/
inductive RawNum
  | absent
  | num (q : ℚ)
  | bad
deriving DecidableEq, Repr

/-- One transaction record from the price-observation source
(`TradeListSearch` response entry). -/
structure Trade where
  /-- the `Type` field, `trade.get("Type")` -/
  ttype : Option String
  /-- `trade.get("Municipality", "")` after the default -/
  municipality : String
  /-- `trade.get("DistrictName", "")` after the default -/
  districtName : String
  /-- the `TradePrice` field -/
  tradePrice : RawNum
  /-- the `Area` field -/
  area : RawNum
  /-- `trade.get("Period", "")` after the default -/
  period : String
  /-- `trade.get("Use", "住宅地")` after the default -/
  use : String
deriving DecidableEq, Repr

/-- `LandPriceClient._calculate_price_per_sqm`:
`int(trade.get("TradePrice", 0))`, `float(trade.get("Area", 1))`,
`int(price / area) if area > 0 else 0`, with `ValueError`/`TypeError`
caught and turned into `0`. -/
def calculatePricePerSqm (priceF areaF : RawNum) : ℤ :=
  match priceF, areaF with
  | .bad, _ => 0
  | _, .bad => 0
  | p, a =>
    let price : ℚ := match p with
      | .num q => (pyTrunc q : ℚ)
      | _ => 0
    let area : ℚ := match a with
      | .num q => q
      | _ => 1
    if 0 < area then pyTrunc (price / area) else 0

/-- The survey-year field of a price observation: a string (the trade's
`Period`) in the nearest-trade case, an integer year in the fallback case. -/
inductive YearVal
  | str (s : String)
  | int (n : ℤ)
deriving DecidableEq, Repr

/-- The price-observation dict produced by `_find_nearest_trade` or
`_get_prefecture_average`. -/
structure PriceObs where
  address : String
  price_per_sqm : ℤ
  distance_km : Option ℚ
  survey_year : YearVal
  land_use : String
  source : String
deriving DecidableEq, Repr

/-- The observation dict `_find_nearest_trade` builds from a trade at a
given (unrounded) distance. -/
def tradeObs (t : Trade) (distance : ℚ) : PriceObs :=
  { address := t.municipality ++ t.districtName
    price_per_sqm := calculatePricePerSqm t.tradePrice t.area
    distance_km := some (pyRound2dp distance)
    survey_year := .str t.period
    land_use := t.use
    source := "国土交通省取引情報" }

/-- `LandPriceClient._find_nearest_trade`.  `g` is the geocoding oracle
(the memoized `_geocode`), `dist` the geodesic-distance oracle.  The fold
keeps the running nearest observation, replacing it only on a strictly
smaller distance (initial minimum is `inf`, so the first candidate always
wins the empty accumulator). -/
def findNearestTrade (g : String → Option (ℚ × ℚ))
    (dist : ℚ × ℚ → ℚ × ℚ → ℚ) (trades : List Trade) (pt : ℚ × ℚ) :
    Option PriceObs :=
  (trades.foldl (fun (acc : Option (PriceObs × ℚ)) t =>
      if t.ttype ≠ some "宅地(土地)" then acc
      else
        match g (t.municipality ++ t.districtName) with
        | none => acc
        | some c =>
          let d := dist pt c
          match acc with
          | none => some (tradeObs t d, d)
          | some pm => if d < pm.2 then some (tradeObs t d, d) else acc)
    none).map Prod.fst

/-- One row of the static regional-average table. -/
structure PrefAvg where
  name : String
  commercial : ℤ
  residential : ℤ
deriving DecidableEq, Repr

/-- The static table in `_get_prefecture_average`. -/
def prefectureAverages : List (String × PrefAvg) :=
  [("13", ⟨"東京都", 2500000, 500000⟩),
   ("14", ⟨"神奈川県", 800000, 250000⟩),
   ("27", ⟨"大阪府", 1200000, 200000⟩),
   ("23", ⟨"愛知県", 600000, 150000⟩),
   ("40", ⟨"福岡県", 500000, 100000⟩)]

/-- `LandPriceClient._get_prefecture_average`: static regional average
price entry, with a global default row for an unknown region code. -/
def getPrefectureAverage (prefCode : String) (year : ℤ) : PriceObs :=
  let avg := (prefectureAverages.lookup prefCode).getD ⟨"その他", 300000, 80000⟩
  { address := avg.name
    price_per_sqm := avg.commercial
    distance_km := none
    survey_year := .int year
    land_use := "商業地（都道府県平均）"
    source := "概算平均値" }

/-- `LandPriceClient._estimate_prefecture_code`: bounding-box membership
tests, first match wins, defaulting to Tokyo ("13"). -/
def estimatePrefectureCode (lat lng : ℚ) : String :=
  if 35.5 ≤ lat ∧ lat ≤ 35.9 ∧ 139.4 ≤ lng ∧ lng ≤ 140.0 then "13"
  else if 35.3 ≤ lat ∧ lat ≤ 35.7 ∧ 139.3 ≤ lng ∧ lng ≤ 139.8 then "14"
  else if 34.5 ≤ lat ∧ lat ≤ 35.0 ∧ 135.3 ≤ lng ∧ lng ≤ 135.8 then "27"
  else if 34.9 ≤ lat ∧ lat ≤ 35.3 ∧ 136.7 ≤ lng ∧ lng ≤ 137.2 then "23"
  else "13"

/-- `LandPriceClient._search_nearest_price`.  `api` is the trade-search
oracle keyed by the estimated prefecture code; `none` models a request
exception or non-200 response.  Any failure, and a search that finds no
nearest trade, fall back to the static regional average. -/
def searchNearestPrice (g : String → Option (ℚ × ℚ))
    (dist : ℚ × ℚ → ℚ × ℚ → ℚ) (api : String → Option (List Trade))
    (lat lng : ℚ) (year : ℤ) : PriceObs :=
  let prefCode := estimatePrefectureCode lat lng
  match api prefCode with
  | some trades =>
    match findNearestTrade g dist trades (lat, lng) with
    | some nearest => nearest
    | none => getPrefectureAverage prefCode year
  | none => getPrefectureAverage prefCode year

/-- `LandPriceClient.get_land_price_by_address`: geocode the query address,
then search; `None` when geocoding fails. -/
def getLandPriceByAddress (g : String → Option (ℚ × ℚ))
    (dist : ℚ × ℚ → ℚ × ℚ → ℚ) (api : String → Option (List Trade))
    (address : String) (year : ℤ) : Option PriceObs :=
  match g address with
  | none => none
  | some c => some (searchNearestPrice g dist api c.1 c.2 year)

/-! ## land_price.py: ValueEstimator -/

/-- A property record as produced by the extraction service (keys may be
missing or null). -/
structure PropertyInfo where
  name : StrField
  address : StrField
  /-- the `type` key: ownership type, "賃貸" marks a leased property -/
  ptype : StrField
  land_area_sqm : NumField
  book_value_million_yen : NumField
deriving DecidableEq, Repr

/-- The result dict of `ValueEstimator.estimate_market_value`. -/
structure ValuationRecord where
  name : Option String
  address : Option String
  ptype : Option String
  land_area_sqm : Option ℚ
  book_value_million_yen : Option ℚ
  estimated_value_million_yen : Option ℚ
  unrealized_gain_million_yen : Option ℚ
  price_per_sqm_used : Option ℤ
  estimation_method : Option String
  estimation_notes : Option String
deriving DecidableEq, Repr

/-- `ValueEstimator.estimate_market_value`.  `landPrice` is the
`get_land_price_by_address` oracle (every external call — geocoding and
the trade-price source — happens inside that single call in the source).
The second component counts how many times `landPrice` is invoked, so that
"no external price lookup is performed" is expressible as count `0`. -/
def estimateMarketValue (landPrice : String → Option PriceObs)
    (p : PropertyInfo) : ValuationRecord × ℕ :=
  let base : ValuationRecord :=
    { name := p.name.getD "不明"
      address := p.address.getD ""
      ptype := p.ptype.getD "不明"
      land_area_sqm := p.land_area_sqm.get
      book_value_million_yen := p.book_value_million_yen.getD0
      estimated_value_million_yen := none
      unrealized_gain_million_yen := none
      price_per_sqm_used := none
      estimation_method := none
      estimation_notes := none }
  if p.ptype.get = some "賃貸" then
    ({ base with estimation_notes := some "賃貸物件のため時価推計対象外"
                 unrealized_gain_million_yen := some 0 }, 0)
  else
    let addr := p.address.getD ""
    if ¬ strTruthy addr then
      ({ base with estimation_notes := some "住所情報なし" }, 0)
    else if ¬ numTruthy p.land_area_sqm.get then
      ({ base with estimation_notes := some "土地面積情報なし" }, 0)
    else
      let land_area := p.land_area_sqm.get.getD 0
      match landPrice (addr.getD "") with
      | some lp =>
        let estimated := land_area * (lp.price_per_sqm : ℚ) / 1000000
        let book := (p.book_value_million_yen.getD0).getD 0
        ({ base with
            estimated_value_million_yen := some (pyRound estimated : ℚ)
            unrealized_gain_million_yen := some (pyRound (estimated - book) : ℚ)
            price_per_sqm_used := some lp.price_per_sqm
            estimation_method := some lp.source
            estimation_notes :=
              some ("基準地価: " ++ lp.address ++ " (" ++ lp.land_use ++ ")") }, 1)
      | none =>
        ({ base with estimation_notes := some "地価データ取得失敗" }, 1)

/-- The result of `ValueEstimator.estimate_company_portfolio`. -/
structure PortfolioResult where
  total_book_value_million_yen : ℚ
  total_estimated_value_million_yen : ℚ
  total_unrealized_gain_million_yen : ℚ
  properties : List ValuationRecord
deriving DecidableEq, Repr

/-- The loop body of `estimate_company_portfolio`: evaluate one property
and add each optional field to its running total when it is truthy. -/
def portfolioStep (landPrice : String → Option PriceObs)
    (acc : List ValuationRecord × ℚ × ℚ × ℚ) (p : PropertyInfo) :
    List ValuationRecord × ℚ × ℚ × ℚ :=
  let ev := (estimateMarketValue landPrice p).1
  (acc.1 ++ [ev],
   if numTruthy ev.book_value_million_yen then
     acc.2.1 + ev.book_value_million_yen.getD 0 else acc.2.1,
   if numTruthy ev.estimated_value_million_yen then
     acc.2.2.1 + ev.estimated_value_million_yen.getD 0 else acc.2.2.1,
   if numTruthy ev.unrealized_gain_million_yen then
     acc.2.2.2 + ev.unrealized_gain_million_yen.getD 0 else acc.2.2.2)

/-- `ValueEstimator.estimate_company_portfolio`: evaluate each property,
accumulate totals guarded by Python truthiness of each optional field, and
round the three totals. -/
def estimateCompanyPortfolio (landPrice : String → Option PriceObs)
    (properties : List PropertyInfo) : PortfolioResult :=
  let r := properties.foldl (portfolioStep landPrice) ([], 0, 0, 0)
  { total_book_value_million_yen := (pyRound r.2.1 : ℚ)
    total_estimated_value_million_yen := (pyRound r.2.2.1 : ℚ)
    total_unrealized_gain_million_yen := (pyRound r.2.2.2 : ℚ)
    properties := r.1 }

/-! ## edinet_api.py: filing search cache and geocode cache -/

/-- A filing document reference from the EDINET listing. -/
structure Doc where
  edinetCode : String
  docID : String
  periodEnd : String
deriving DecidableEq, Repr

/-- On-disk filing cache entry: file age in whole days (from the mtime) and
its content; `content = none` models an unreadable file (the `json.load`
is wrapped in a bare `except: pass`). -/
structure FilingCacheEntry where
  ageDays : ℤ
  content : Option Doc
deriving DecidableEq, Repr

/-- The fiscal-season months prioritized by the search. -/
def priorityMonths : List ℕ := [5, 6, 11, 12]

/-- `range(0, 730, 3)`: the sampled days-ago offsets. -/
def scanOffsets : List ℕ := (List.range 244).map (· * 3)

/-- The offsets actually queried: within the first 180 days every sampled
offset, beyond that only offsets falling in a priority month (`monthOf`
maps a days-ago offset to the calendar month of that date). -/
def scanDates (monthOf : ℕ → ℕ) : List ℕ :=
  scanOffsets.filter (fun d => d ≤ 180 ∨ monthOf d ∈ priorityMonths)

/-- The uncached search loop of `EDINETClient.search_annual_report`:
first listing entry matching the EDINET code, scanning dates in order.
`getDocs` is the `get_document_list` oracle keyed by days-ago offset. -/
def findFiling (getDocs : ℕ → List Doc) (monthOf : ℕ → ℕ)
    (edinetCode : String) : Option Doc :=
  (scanDates monthOf).findSome?
    (fun d => (getDocs d).find? (fun doc => doc.edinetCode == edinetCode))

/-- `EDINETClient.search_annual_report`: returns the result and the filing
cache state afterwards.  A readable cache entry strictly younger than 30
days is returned directly; otherwise the search runs, writing a fresh
cache entry only when a document is found. -/
def searchAnnualReport (getDocs : ℕ → List Doc) (monthOf : ℕ → ℕ)
    (edinetCode : String) (cache : Option FilingCacheEntry) :
    Option Doc × Option FilingCacheEntry :=
  let renew :=
    match findFiling getDocs monthOf edinetCode with
    | some doc => (some doc, some ⟨0, some doc⟩)
    | none => ((none : Option Doc), cache)
  match cache with
  | some entry =>
    if entry.ageDays < 30 then
      (match entry.content with
       | some doc => (some doc, cache)
       | none => renew)
    else renew
  | none => renew

/-- `LandPriceClient._geocode`: in-memory memo dict (no freshness policy),
then the geocoding service, then one retry on the simplified address.
Returns the coordinate (if any) and the cache afterwards. -/
def geocodeCached (service : String → Option (ℚ × ℚ))
    (simplify : String → String) (cache : List (String × (ℚ × ℚ)))
    (address : String) :
    Option (ℚ × ℚ) × List (String × (ℚ × ℚ)) :=
  let key := "geocode_" ++ address
  match cache.lookup key with
  | some c => (some c, cache)
  | none =>
    match service address with
    | some c => (some c, (key, c) :: cache)
    | none =>
      let simplified := simplify address
      if simplified ≠ address then
        match service simplified with
        | some c => (some c, (key, c) :: cache)
        | none => (none, cache)
      else (none, cache)

/-! ## main.py: enrichment pipeline and batch driver -/

/-- The report dict returned by `AnnualReportFetcher.fetch_property_info`. -/
structure FilingReport where
  doc_id : Option String
  property_text : Option String
  error : Option String
deriving DecidableEq, Repr

/-- Outcome of the filing-retrieval stage: an uncaught exception inside
`fetch_property_info`'s caller, or the report dict. -/
inductive FetchOutcome
  | exc (msg : String)
  | ok (report : FilingReport)
deriving DecidableEq, Repr

/-- The dict returned by `PropertyExtractor.extract_properties`. -/
structure Extracted where
  properties : List PropertyInfo
  error : Option String
deriving DecidableEq, Repr

/-- Outcome of the extraction stage. -/
inductive ExtractOutcome
  | exc (msg : String)
  | ok (e : Extracted)
deriving DecidableEq, Repr

/-- The external collaborators of `RealEstateAnalyzer`, as oracles: filing
retrieval keyed by EDINET code, extraction keyed by the property text,
the land-price lookup, and whether map generation raises. -/
structure AnalyzeEnv where
  fetch : String → FetchOutcome
  extract : String → ExtractOutcome
  landPrice : String → Option PriceObs
  mapExc : Option String

/-- A terminal per-entity result (one element of the checkpoint).  The
minimal error-only entries appended by the drivers carry the zero/empty
defaults of the fields they omit, and `edinet_code = none`. -/
structure CompanyResult where
  stock_code : String
  company_name : String
  edinet_code : Option String
  total_book_value_million_yen : ℚ
  total_estimated_value_million_yen : ℚ
  total_unrealized_gain_million_yen : ℚ
  properties : List ValuationRecord
  map_path : Option String
  error : Option String
deriving DecidableEq, Repr

/-- `RealEstateAnalyzer.analyze_single_company`.  (The `output_dir` path
prefix of `map_path` is elided.) -/
def analyzeSingleCompany (env : AnalyzeEnv)
    (stock_code company_name edinet_code : String) : CompanyResult :=
  let base : CompanyResult :=
    { stock_code := stock_code
      company_name := company_name
      edinet_code := some edinet_code
      total_book_value_million_yen := 0
      total_estimated_value_million_yen := 0
      total_unrealized_gain_million_yen := 0
      properties := []
      map_path := none
      error := none }
  match env.fetch edinet_code with
  | .exc msg => { base with error := some msg }
  | .ok report =>
    if strTruthy report.error then
      { base with error := some ("有報取得エラー: " ++ report.error.getD "") }
    else if ¬ strTruthy report.property_text then
      { base with error := some "設備情報セクションが見つかりません" }
    else
      match env.extract (report.property_text.getD "") with
      | .exc msg => { base with error := some msg }
      | .ok extracted =>
        if strTruthy extracted.error then
          { base with error := some ("抽出エラー: " ++ extracted.error.getD "") }
        else if extracted.properties.isEmpty then
          { base with error := some "不動産情報が抽出されませんでした" }
        else
          let ev := estimateCompanyPortfolio env.landPrice extracted.properties
          let filled := { base with
            total_book_value_million_yen := ev.total_book_value_million_yen
            total_estimated_value_million_yen := ev.total_estimated_value_million_yen
            total_unrealized_gain_million_yen := ev.total_unrealized_gain_million_yen
            properties := ev.properties }
          match env.mapExc with
          | some msg => { filled with error := some msg }
          | none => { filled with map_path := some (stock_code ++ "_map.html") }

/-- One roster entry. -/
structure Stock where
  code : String
  name : String
  edinet_code : Option String
deriving DecidableEq, Repr

/-- The shared per-stock step of both drivers: resolve the EDINET code
(`stock.get("edinet_code") or edinet_mapping.get(stock_code)`), append a
minimal error entry when it is falsy, otherwise run the pipeline. -/
def procStock (env : AnalyzeEnv) (mapping : String → Option String)
    (stock : Stock) : CompanyResult :=
  let ec := pyOrStr stock.edinet_code (mapping stock.code)
  if ¬ strTruthy ec then
    { stock_code := stock.code
      company_name := stock.name
      edinet_code := none
      total_book_value_million_yen := 0
      total_estimated_value_million_yen := 0
      total_unrealized_gain_million_yen := 0
      properties := []
      map_path := none
      error := some "EDINETコードが見つかりません" }
  else analyzeSingleCompany env stock.code stock.name (ec.getD "")

/-- The dict `{r["stock_code"]: r for r in existing}`: on duplicate keys
the last occurrence wins. -/
def dictOfResults (rs : List CompanyResult) (code : String) :
    Option CompanyResult :=
  rs.reverse.find? (fun r => r.stock_code == code)

/-- The main loop of `analyze_topix500`: either copy the existing entry
for a stock code or process the stock, appending one result per stock. -/
def batchLoop (env : AnalyzeEnv) (mapping : String → Option String)
    (existing : String → Option CompanyResult) (stocks : List Stock) :
    List CompanyResult :=
  stocks.foldl (fun results stock =>
    match existing stock.code with
    | some r => results ++ [r]
    | none => results ++ [procStock env mapping stock]) []

/-- `RealEstateAnalyzer.analyze_topix500`.  `existingFile` is the content
of `analysis_results.json` if it exists.  `limit` follows Python
truthiness (`if limit:`), so `some 0` does not truncate.  Existing entries
are consulted only when skip-existing is enabled and the file exists. -/
def analyzeTopix500 (env : AnalyzeEnv) (stocks : List Stock)
    (mapping : String → Option String) (limit : Option ℕ)
    (skip_existing : Bool) (existingFile : Option (List CompanyResult)) :
    List CompanyResult :=
  let stocks := match limit with
    | some n => if n ≠ 0 then stocks.take n else stocks
    | none => stocks
  let existing : String → Option CompanyResult :=
    match skip_existing, existingFile with
    | true, some rs => dictOfResults rs
    | _, _ => fun _ => none
  batchLoop env mapping existing stocks

/-! ## weekly_runner.py -/

/-- `get_progress`: prior results and, derived from them, the identifiers
counted as analyzed — those whose recorded error is falsy. -/
def getProgress (file : Option (List CompanyResult)) :
    List CompanyResult × List String :=
  match file with
  | some results =>
    (results, (results.filter (fun r => ¬ strTruthy r.error)).map
      (fun r => r.stock_code))
  | none => ([], [])

/-- `run_batch`: keep all prior results, filter the roster down to codes
not yet analyzed successfully, take the next `batch_size`, and append one
new result per processed stock. -/
def runBatch (env : AnalyzeEnv) (stocks : List Stock)
    (mapping : String → Option String) (batch_size : ℕ)
    (file : Option (List CompanyResult)) : List CompanyResult :=
  let progress := getProgress file
  let pending := stocks.filter (fun s => ¬ progress.2.contains s.code)
  let batch := pending.take batch_size
  batch.foldl (fun results stock => results ++ [procStock env mapping stock])
    progress.1

/-! ## Theorems: valuation estimator (claims C1, C3, C4, C5) -/

/-- C1: for every property record with ownership type Leased (賃貸), the
valuation has `unrealizedGain = 0`, the estimation method left unset, and
no external price lookup is performed (`get_land_price_by_address`, which
contains both the geocoding call and the land-price source call, is
invoked zero times). -/
theorem C1_leased_no_lookup (landPrice : String → Option PriceObs)
    (p : PropertyInfo) (h : p.ptype.get = some "賃貸") :
    (estimateMarketValue landPrice p).1.unrealized_gain_million_yen = some 0 ∧
    (estimateMarketValue landPrice p).1.estimation_method = none ∧
    (estimateMarketValue landPrice p).2 = 0 := by
  simp [estimateMarketValue, h]

theorem C1_witness :
    (estimateMarketValue (fun _ => none)
        ⟨.absent, .absent, .val "賃貸", .absent, .absent⟩).1.unrealized_gain_million_yen
      = some 0 ∧
    (estimateMarketValue (fun _ => none)
        ⟨.absent, .absent, .val "賃貸", .absent, .absent⟩).1.estimation_method = none ∧
    (estimateMarketValue (fun _ => none)
        ⟨.absent, .absent, .val "賃貸", .absent, .absent⟩).2 = 0 :=
  C1_leased_no_lookup (fun _ => none) ⟨.absent, .absent, .val "賃貸", .absent, .absent⟩ rfl

/-- C3: for every property not marked 賃貸 whose address is missing (falsy)
or whose land area is missing (falsy), the valuation leaves
`estimatedValue`, `unrealizedGain`, `priceUsed` and `method` all unset and
sets a descriptive notes message (no-address / no-area). -/
theorem C3_missing_inputs (landPrice : String → Option PriceObs)
    (p : PropertyInfo) (hty : ¬ p.ptype.get = some "賃貸")
    (hmiss : strTruthy (p.address.getD "") = false ∨
      numTruthy p.land_area_sqm.get = false) :
    (estimateMarketValue landPrice p).1.estimated_value_million_yen = none ∧
    (estimateMarketValue landPrice p).1.unrealized_gain_million_yen = none ∧
    (estimateMarketValue landPrice p).1.price_per_sqm_used = none ∧
    (estimateMarketValue landPrice p).1.estimation_method = none ∧
    (estimateMarketValue landPrice p).1.estimation_notes =
      some (if strTruthy (p.address.getD "") = false then "住所情報なし"
            else "土地面積情報なし") := by
  rcases hmiss with h | h
  · simp [estimateMarketValue, hty, h]
  · by_cases ha : strTruthy (p.address.getD "") = false
    · simp [estimateMarketValue, hty, ha]
    · rw [Bool.not_eq_false] at ha
      simp [estimateMarketValue, hty, ha, h]

theorem C3_witness :
    (estimateMarketValue (fun _ => none)
        ⟨.absent, .absent, .absent, .absent, .absent⟩).1.estimated_value_million_yen
      = none ∧
    (estimateMarketValue (fun _ => none)
        ⟨.absent, .absent, .absent, .absent, .absent⟩).1.unrealized_gain_million_yen
      = none ∧
    (estimateMarketValue (fun _ => none)
        ⟨.absent, .absent, .absent, .absent, .absent⟩).1.price_per_sqm_used = none ∧
    (estimateMarketValue (fun _ => none)
        ⟨.absent, .absent, .absent, .absent, .absent⟩).1.estimation_method = none ∧
    (estimateMarketValue (fun _ => none)
        ⟨.absent, .absent, .absent, .absent, .absent⟩).1.estimation_notes =
      some (if strTruthy ((StrField.absent).getD "") = false then "住所情報なし"
            else "土地面積情報なし") :=
  C3_missing_inputs (fun _ => none) ⟨.absent, .absent, .absent, .absent, .absent⟩
    (by decide) (Or.inl (by decide))

/-- The resolved observation of the C4 counterexample (price 500000 ¥/㎡). -/
def c4obs : PriceObs :=
  ⟨"近隣地点", 500000, some 1, .str "2024", "住宅地", "国土交通省取引情報"⟩

/-- The owned one-square-meter property of the C4 counterexample. -/
def c4prop : PropertyInfo :=
  ⟨.val "小型地", .val "住所X", .val "自社保有", .val 1, .absent⟩

/-- C4 counterexample: for `landAreaSqm = 1` and `pricePerArea = 500000`,
the claimed value `landAreaSqm × pricePerArea / 1e6 = 0.5` differs from
what the code records: the code rounds to whole millions (half to even)
and stores `0`. -/
theorem C4_counterexample :
    (estimateMarketValue (fun _ => some c4obs) c4prop).1.estimated_value_million_yen
      = some 0 ∧
    (estimateMarketValue (fun _ => some c4obs) c4prop).1.estimated_value_million_yen
      ≠ some ((1 : ℚ) * 500000 / 1000000) := by
  constructor
  · with_unfolding_all decide
  · with_unfolding_all decide

/-- C4 amended: for every owned (not 賃貸) property with a truthy address
and land area whose lookup resolves, the code records
`estimatedValue = round(landAreaSqm × pricePerArea / 1e6)` and
`unrealizedGain = round(landAreaSqm × pricePerArea / 1e6 − bookValue)`
(Python banker's rounding to whole millions; an absent book value is
treated as 0), along with the price used and the source as the method. -/
theorem C4_value_formula (landPrice : String → Option PriceObs)
    (p : PropertyInfo) (a : ℚ) (s : String) (lp : PriceObs)
    (hty : ¬ p.ptype.get = some "賃貸")
    (haddr : p.address.getD "" = some s) (hs : s ≠ "")
    (harea : p.land_area_sqm.get = some a) (ha : a ≠ 0)
    (hlp : landPrice s = some lp) :
    (estimateMarketValue landPrice p).1.estimated_value_million_yen
      = some ((pyRound (a * (lp.price_per_sqm : ℚ) / 1000000) : ℤ) : ℚ) ∧
    (estimateMarketValue landPrice p).1.unrealized_gain_million_yen
      = some ((pyRound (a * (lp.price_per_sqm : ℚ) / 1000000
          - (p.book_value_million_yen.getD0).getD 0) : ℤ) : ℚ) ∧
    (estimateMarketValue landPrice p).1.price_per_sqm_used
      = some lp.price_per_sqm ∧
    (estimateMarketValue landPrice p).1.estimation_method = some lp.source := by
  simp [estimateMarketValue, hty, haddr, harea, hlp, strTruthy, numTruthy, hs, ha]

/-- The resolved observation of the C4 witness (price 300000 ¥/㎡). -/
def c4wObs : PriceObs :=
  ⟨"神奈川県川崎市", 300000, some 1, .str "2024", "住宅地", "国土交通省取引情報"⟩

/-- The owned property of the C4 witness (area 2500 ㎡, book value 150). -/
def c4wProp : PropertyInfo :=
  ⟨.val "本社", .val "valid", .val "自社保有", .val 2500, .val 150⟩

set_option maxRecDepth 8000 in
theorem C4_witness :
    (estimateMarketValue (fun _ => some c4wObs) c4wProp).1.estimated_value_million_yen
      = some 750 ∧
    (estimateMarketValue (fun _ => some c4wObs) c4wProp).1.unrealized_gain_million_yen
      = some 600 := by
  have h := C4_value_formula (fun _ => some c4wObs) c4wProp 2500 "valid" c4wObs
    (by decide) rfl (by decide) rfl (by decide) rfl
  refine ⟨h.1.trans ?_, h.2.1.trans ?_⟩
  · with_unfolding_all decide
  · with_unfolding_all decide

/-- Adding a truthiness-guarded optional contribution equals adding its
value-or-zero: `None` contributes nothing and a falsy `0` adds `0`. -/
theorem truthyAdd (x : ℚ) (v : Option ℚ) :
    (if numTruthy v then x + v.getD 0 else x) = x + v.getD 0 := by
  cases v with
  | none => simp [numTruthy]
  | some q =>
    by_cases h : q = 0
    · simp [numTruthy, h]
    · simp [numTruthy, h]

/-- Unrolling the portfolio fold: the records accumulate in order and each
total accumulates the value-or-zero of its field. -/
theorem foldl_portfolioStep (landPrice : String → Option PriceObs) :
    ∀ (props : List PropertyInfo) (l : List ValuationRecord) (b e g : ℚ),
    props.foldl (portfolioStep landPrice) (l, b, e, g) =
      (l ++ props.map (fun p => (estimateMarketValue landPrice p).1),
       b + (props.map (fun p =>
         ((estimateMarketValue landPrice p).1.book_value_million_yen).getD 0)).sum,
       e + (props.map (fun p =>
         ((estimateMarketValue landPrice p).1.estimated_value_million_yen).getD 0)).sum,
       g + (props.map (fun p =>
         ((estimateMarketValue landPrice p).1.unrealized_gain_million_yen).getD 0)).sum)
  | [], l, b, e, g => by simp
  | p :: ps, l, b, e, g => by
    rw [List.foldl_cons]
    show ps.foldl (portfolioStep landPrice) (portfolioStep landPrice (l, b, e, g) p) = _
    rw [portfolioStep]
    simp only [truthyAdd]
    rw [foldl_portfolioStep landPrice ps]
    simp [add_assoc]

/-- The property of the C5 counterexample: its book-value key is missing. -/
def c5prop : PropertyInfo :=
  ⟨.val "倉庫", .absent, .val "賃貸", .absent, .absent⟩

/-- C5 counterexample: a property whose book-value key is absent gets
`book_value_million_yen = 0` in its per-property record — the absent field
is replaced by `0`, not kept absent. -/
theorem C5_counterexample :
    ((estimateCompanyPortfolio (fun _ => none) [c5prop]).properties.map
        (fun r => r.book_value_million_yen)) = [some 0] ∧
    some (0 : ℚ) ≠ (none : Option ℚ) := by
  constructor
  · rw [estimateCompanyPortfolio]
    rw [foldl_portfolioStep (fun _ => none) [c5prop] [] 0 0 0]
    simp [estimateMarketValue, c5prop, StrField.get, NumField.getD0]
  · decide

/-- C5 amended: the portfolio totals are the (rounded) sums of the
value-or-zero of each per-property field — absent fields contribute `0` —
and the per-property records are exactly the per-property valuations, in
order.  Per record, `estimatedValue`/`unrealizedGain` stay absent when not
computed and a null book value stays absent, but a property whose
book-value key is missing gets `0` recorded (`get(key, 0)`), not an absent
field. -/
theorem C5_portfolio_totals (landPrice : String → Option PriceObs)
    (props : List PropertyInfo) :
    (estimateCompanyPortfolio landPrice props).properties
      = props.map (fun p => (estimateMarketValue landPrice p).1) ∧
    (estimateCompanyPortfolio landPrice props).total_book_value_million_yen
      = ((pyRound ((props.map (fun p =>
          ((estimateMarketValue landPrice p).1.book_value_million_yen).getD 0)).sum) : ℤ) : ℚ) ∧
    (estimateCompanyPortfolio landPrice props).total_estimated_value_million_yen
      = ((pyRound ((props.map (fun p =>
          ((estimateMarketValue landPrice p).1.estimated_value_million_yen).getD 0)).sum) : ℤ) : ℚ) ∧
    (estimateCompanyPortfolio landPrice props).total_unrealized_gain_million_yen
      = ((pyRound ((props.map (fun p =>
          ((estimateMarketValue landPrice p).1.unrealized_gain_million_yen).getD 0)).sum) : ℤ) : ℚ) ∧
    ∀ p : PropertyInfo, (estimateMarketValue landPrice p).1.book_value_million_yen
      = p.book_value_million_yen.getD0 := by
  refine ⟨?_, ?_, ?_, ?_, ?_⟩
  · rw [estimateCompanyPortfolio]
    rw [foldl_portfolioStep landPrice props [] 0 0 0]
    simp
  · rw [estimateCompanyPortfolio]
    rw [foldl_portfolioStep landPrice props [] 0 0 0]
    simp
  · rw [estimateCompanyPortfolio]
    rw [foldl_portfolioStep landPrice props [] 0 0 0]
    simp
  · rw [estimateCompanyPortfolio]
    rw [foldl_portfolioStep landPrice props [] 0 0 0]
    simp
  · intro p
    rw [estimateMarketValue]
    dsimp only
    split
    · rfl
    · split
      · rfl
      · split
        · rfl
        · split
          · rfl
          · rfl

/-! ## Theorems: enrichment pipeline (claim C2) -/

/-- The successfully fetched report of the C2 counterexample. -/
def c2report : FilingReport := ⟨some "S100TEST", some "主要な設備の状況 ...", none⟩

/-- The C2 counterexample environment: filing retrieval succeeds and
extraction succeeds with an empty property list. -/
def c2env : AnalyzeEnv :=
  { fetch := fun _ => .ok c2report
    extract := fun _ => .ok ⟨[], none⟩
    landPrice := fun _ => none
    mapExc := none }

/-- C2 counterexample: when retrieval and extraction both succeed but the
extracted property list is empty, the terminal result is NOT a success —
the code sets the error field ("不動産情報が抽出されませんでした"). -/
theorem C2_counterexample :
    (analyzeSingleCompany c2env "4746" "東計電算" "E05041").error
      = some "不動産情報が抽出されませんでした" ∧
    (analyzeSingleCompany c2env "4746" "東計電算" "E05041").properties = [] := by
  constructor
  · rfl
  · rfl

/-- C2 amended: when retrieval succeeds (no error, text present) and
extraction succeeds (no error field), a zero-property extraction is
terminal with the error field set ("不動産情報が抽出されませんでした") and
an empty list, while a non-empty extraction carries the full portfolio and
an error only if map generation raises. -/
theorem C2_empty_extraction_is_error (env : AnalyzeEnv)
    (sc cn ec : String) (report : FilingReport) (e : Extracted)
    (hf : env.fetch ec = .ok report)
    (he : strTruthy report.error = false)
    (ht : strTruthy report.property_text = true)
    (hx : env.extract (report.property_text.getD "") = .ok e)
    (hee : strTruthy e.error = false) :
    (e.properties = [] →
      (analyzeSingleCompany env sc cn ec).error
        = some "不動産情報が抽出されませんでした" ∧
      (analyzeSingleCompany env sc cn ec).properties = []) ∧
    (e.properties ≠ [] →
      (analyzeSingleCompany env sc cn ec).error = env.mapExc ∧
      (analyzeSingleCompany env sc cn ec).properties
        = (estimateCompanyPortfolio env.landPrice e.properties).properties) := by
  constructor
  · intro hp
    simp [analyzeSingleCompany, hf, he, ht, hx, hee, hp]
  · intro hp
    have hp' : e.properties.isEmpty = false := by
      cases hpl : e.properties with
      | nil => exact absurd hpl hp
      | cons a l => rfl
    cases hmap : env.mapExc with
    | none => simp [analyzeSingleCompany, hf, he, ht, hx, hee, hp', hmap]
    | some m => simp [analyzeSingleCompany, hf, he, ht, hx, hee, hp', hmap]

/-- A one-property extraction environment exercising the non-empty branch
of the amended C2 statement. -/
def c2okEnv : AnalyzeEnv :=
  { fetch := fun _ => .ok c2report
    extract := fun _ => .ok ⟨[⟨.val "本社", .absent, .val "賃貸", .absent, .absent⟩], none⟩
    landPrice := fun _ => none
    mapExc := none }

theorem C2_witness :
    ((analyzeSingleCompany c2env "4746" "東計電算" "E05041").error
        = some "不動産情報が抽出されませんでした" ∧
      (analyzeSingleCompany c2env "4746" "東計電算" "E05041").properties = []) ∧
    (analyzeSingleCompany c2okEnv "4746" "東計電算" "E05041").error = none :=
  ⟨(C2_empty_extraction_is_error c2env "4746" "東計電算" "E05041" c2report ⟨[], none⟩
      rfl rfl rfl rfl rfl).1 rfl,
   ((C2_empty_extraction_is_error c2okEnv "4746" "東計電算" "E05041" c2report
      ⟨[⟨.val "本社", .absent, .val "賃貸", .absent, .absent⟩], none⟩
      rfl rfl rfl rfl rfl).2 (by decide)).1.trans rfl⟩

/-! ## Theorems: batch drivers (claims C8, C9) -/

/-- `analyze_single_company` reports the queried stock code in every
branch. -/
theorem analyzeSingleCompany_stock_code (env : AnalyzeEnv) (a b c : String) :
    (analyzeSingleCompany env a b c).stock_code = a := by
  rw [analyzeSingleCompany]
  repeat' split
  all_goals rfl

/-- Both drivers' per-stock step reports the roster entry's code. -/
theorem procStock_stock_code (env : AnalyzeEnv)
    (mapping : String → Option String) (s : Stock) :
    (procStock env mapping s).stock_code = s.code := by
  rw [procStock]
  split
  · rfl
  · exact analyzeSingleCompany_stock_code ..

/-- Folding an append-one-result-each step over a list. -/
theorem foldl_appendEach (h : Stock → CompanyResult) :
    ∀ (l : List Stock) (acc : List CompanyResult),
    l.foldl (fun rs s => rs ++ [h s]) acc = acc ++ l.map h
  | [], acc => by simp
  | s :: t, acc => by
    rw [List.foldl_cons, foldl_appendEach h t]
    simp

/-- On a result list with duplicate-free codes, `find?` by a member's code
returns exactly that member. -/
theorem find?_code_unique :
    ∀ (l : List CompanyResult),
    (l.map (fun r => r.stock_code)).Nodup →
    ∀ r ∈ l, l.find? (fun x => x.stock_code == r.stock_code) = some r
  | [], _, r, hr => absurd hr (List.not_mem_nil r)
  | a :: t, hnd, r, hr => by
    rw [List.map_cons, List.nodup_cons] at hnd
    rcases List.mem_cons.mp hr with rfl | hrt
    · exact List.find?_cons_of_pos _ (by simp)
    · have hne : a.stock_code ≠ r.stock_code := by
        intro he
        exact hnd.1 (he ▸ List.mem_map_of_mem _ hrt)
      rw [List.find?_cons_of_neg _ (by simpa using hne)]
      exact find?_code_unique t hnd.2 r hrt

/-- On duplicate-free codes, the last-wins dict contains each member under
its own code. -/
theorem dictOfResults_mem (l : List CompanyResult)
    (hnd : (l.map (fun r => r.stock_code)).Nodup) (r : CompanyResult)
    (hr : r ∈ l) : dictOfResults l r.stock_code = some r := by
  rw [dictOfResults]
  refine find?_code_unique l.reverse ?_ r (List.mem_reverse.mpr hr)
  rw [List.map_reverse]
  exact List.nodup_reverse.mpr hnd

/-- Whatever is found in the dict under a code carries that code. -/
theorem dictOfResults_code (l : List CompanyResult) (c : String)
    (r : CompanyResult) (h : dictOfResults l c = some r) :
    r.stock_code = c := by
  rw [dictOfResults] at h
  simpa using List.find?_some h

/-- The loop produces exactly one result per roster entry, carrying that
entry's code, provided copied entries carry their lookup code. -/
theorem batchLoop_go_codes (env : AnalyzeEnv)
    (mapping : String → Option String)
    (E : String → Option CompanyResult)
    (hE : ∀ c r, E c = some r → r.stock_code = c) :
    ∀ (stocks : List Stock) (acc : List CompanyResult),
    ((stocks.foldl (fun results stock =>
        match E stock.code with
        | some r => results ++ [r]
        | none => results ++ [procStock env mapping stock]) acc).map
      (fun r => r.stock_code))
      = acc.map (fun r => r.stock_code) ++ stocks.map (fun s => s.code)
  | [], acc => by simp
  | s :: t, acc => by
    rw [List.foldl_cons]
    cases hEs : E s.code with
    | some r =>
      have hc := hE s.code r hEs
      simp only [hEs, batchLoop_go_codes env mapping E hE t]
      simp [hc]
    | none =>
      simp only [hEs, batchLoop_go_codes env mapping E hE t]
      simp [procStock_stock_code]

/-- Codes of the loop output are the roster codes, in order. -/
theorem batchLoop_codes (env : AnalyzeEnv) (mapping : String → Option String)
    (E : String → Option CompanyResult)
    (hE : ∀ c r, E c = some r → r.stock_code = c) (stocks : List Stock) :
    (batchLoop env mapping E stocks).map (fun r => r.stock_code)
      = stocks.map (fun s => s.code) := by
  rw [batchLoop]
  rw [batchLoop_go_codes env mapping E hE stocks []]
  simp

/-- A loop with no existing entries maps `procStock` over the roster. -/
theorem batchLoop_none (env : AnalyzeEnv) (mapping : String → Option String)
    (stocks : List Stock) :
    batchLoop env mapping (fun _ => none) stocks
      = stocks.map (procStock env mapping) := by
  rw [batchLoop]
  rw [foldl_appendEach (procStock env mapping) stocks []]
  simp

/-- A loop consulting the dict of its own first-run output copies each
entry unchanged (duplicate-free roster codes). -/
theorem batchLoop_dict (env : AnalyzeEnv) (mapping : String → Option String)
    (stocks : List Stock) (hnd : (stocks.map (fun s => s.code)).Nodup) :
    batchLoop env mapping
        (dictOfResults (stocks.map (procStock env mapping))) stocks
      = stocks.map (procStock env mapping) := by
  have hcodes : ((stocks.map (procStock env mapping)).map
      (fun r => r.stock_code)) = stocks.map (fun s => s.code) := by
    rw [List.map_map]
    exact List.map_congr_left (fun s _ => procStock_stock_code env mapping s)
  rw [batchLoop]
  rw [List.foldl_ext _ (fun rs s => rs ++ [procStock env mapping s]) []
    (fun a s hs => ?_)]
  · rw [foldl_appendEach (procStock env mapping) stocks []]
    simp
  · have hmem : procStock env mapping s ∈ stocks.map (procStock env mapping) :=
      List.mem_map_of_mem _ hs
    have hdict := dictOfResults_mem _ (hcodes ▸ hnd) _ hmem
    rw [procStock_stock_code] at hdict
    simp only [hdict]

/-- The checkpoint ids of any driver run (no limit) are the roster codes,
in order: one result per roster entity. -/
theorem analyzeTopix500_codes (env : AnalyzeEnv) (stocks : List Stock)
    (mapping : String → Option String) (skip : Bool)
    (ef : Option (List CompanyResult)) :
    (analyzeTopix500 env stocks mapping none skip ef).map
      (fun r => r.stock_code) = stocks.map (fun s => s.code) := by
  show (batchLoop env mapping _ stocks).map (fun r => r.stock_code) = _
  apply batchLoop_codes
  intro c r h
  cases skip with
  | false => exact absurd h (by simp)
  | true =>
    cases ef with
    | none => exact absurd h (by simp)
    | some rs => exact dictOfResults_code rs c r h

/-- The roster entry of the C8 counterexample. -/
def c8stock : Stock := ⟨"9001", "甲運輸", some "E9001"⟩

/-- An environment whose filing stage raises, so the entity terminates
with an error recorded. -/
def c8env : AnalyzeEnv :=
  { fetch := fun _ => .exc "ExternalServiceError"
    extract := fun _ => .ok ⟨[], none⟩
    landPrice := fun _ => none
    mapExc := none }

/-- The checkpointed entry of a previous run in which entity 9001 failed. -/
def c8prior : CompanyResult :=
  { stock_code := "9001"
    company_name := "甲運輸"
    edinet_code := some "E9001"
    total_book_value_million_yen := 0
    total_estimated_value_million_yen := 0
    total_unrealized_gain_million_yen := 0
    properties := []
    map_path := none
    error := some "ExternalServiceError" }

/-- C8 counterexample: re-running the weekly batch runner over a roster
whose only entity previously failed keeps the old errored entry AND
appends a fresh attempt, so the checkpoint contains the identifier twice —
checkpoint identifiers are not unique across batch runs. -/
theorem C8_counterexample :
    ((runBatch c8env [c8stock] (fun _ => none) 10 (some [c8prior])).map
      (fun r => r.stock_code)) = ["9001", "9001"] ∧
    ¬ ((["9001", "9001"] : List String).Nodup) := by
  constructor
  · rfl
  · decide

/-- C8 amended, for the main driver `analyze_topix500` (no limit): with a
duplicate-free roster the checkpoint ids are always duplicate-free; with
skip-existing enabled an unchanged second run reproduces the first
checkpoint exactly (no entity — successful or errored — is re-processed);
and with skip-existing disabled every roster entity is re-processed.  The
weekly runner, by contrast, re-attempts errored identifiers while keeping
their old entries (see the counterexample). -/
theorem C8_checkpoint_invariants (env : AnalyzeEnv) (stocks : List Stock)
    (mapping : String → Option String)
    (hnd : (stocks.map (fun s => s.code)).Nodup) :
    (∀ (skip : Bool) (ef : Option (List CompanyResult)),
      ((analyzeTopix500 env stocks mapping none skip ef).map
        (fun r => r.stock_code)).Nodup) ∧
    analyzeTopix500 env stocks mapping none true
        (some (analyzeTopix500 env stocks mapping none true none))
      = analyzeTopix500 env stocks mapping none true none ∧
    (∀ ef : Option (List CompanyResult),
      analyzeTopix500 env stocks mapping none false ef
        = stocks.map (procStock env mapping)) := by
  refine ⟨?_, ?_, ?_⟩
  · intro skip ef
    rw [analyzeTopix500_codes env stocks mapping skip ef]
    exact hnd
  · have h1 : analyzeTopix500 env stocks mapping none true none
        = stocks.map (procStock env mapping) :=
      batchLoop_none env mapping stocks
    rw [h1]
    show batchLoop env mapping
      (dictOfResults (stocks.map (procStock env mapping))) stocks = _
    exact batchLoop_dict env mapping stocks hnd
  · intro ef
    exact batchLoop_none env mapping stocks

theorem C8_witness :
    analyzeTopix500 c8env [c8stock] (fun _ => none) none true
        (some (analyzeTopix500 c8env [c8stock] (fun _ => none) none true none))
      = analyzeTopix500 c8env [c8stock] (fun _ => none) none true none ∧
    ((analyzeTopix500 c8env [c8stock] (fun _ => none) none true none).map
      (fun r => r.stock_code)).Nodup :=
  ⟨(C8_checkpoint_invariants c8env [c8stock] (fun _ => none) (by decide)).2.1,
   (C8_checkpoint_invariants c8env [c8stock] (fun _ => none) (by decide)).1
      true none⟩

/-- The successfully fetched report of the C9 example. -/
def c9report : FilingReport := ⟨some "S100C9", some "主要な設備の状況のテキスト", none⟩

/-- The single property each successful C9 entity extracts. -/
def c9prop : PropertyInfo :=
  ⟨.val "本社", .val "東京都千代田区", .val "賃貸", .absent, .absent⟩

/-- The C9 environment: entity E2's filing resolution raises an external
service error; the other entities succeed end to end. -/
def c9env : AnalyzeEnv :=
  { fetch := fun ec => if ec = "E2" then .exc "ExternalServiceError"
      else .ok c9report
    extract := fun _ => .ok ⟨[c9prop], none⟩
    landPrice := fun _ => none
    mapExc := none }

/-- The C9 roster of three entities. -/
def c9stocks : List Stock :=
  [⟨"1301", "甲社", some "E1"⟩, ⟨"1302", "乙社", some "E2"⟩,
   ⟨"1303", "丙社", some "E3"⟩]

/-- C9: the batch driver yields exactly one result per roster entity, in
roster order, for every roster and environment; and concretely, a roster
of 3 whose second entity raises an external-service error during filing
resolution yields a 3-entry result list where only entity 2 carries an
error while entities 1 and 3 carry full (non-empty) results. -/
theorem C9_failure_isolation :
    (∀ (env : AnalyzeEnv) (stocks : List Stock)
      (mapping : String → Option String) (skip : Bool)
      (ef : Option (List CompanyResult)),
      (analyzeTopix500 env stocks mapping none skip ef).map
        (fun r => r.stock_code) = stocks.map (fun s => s.code)) ∧
    (analyzeTopix500 c9env c9stocks (fun _ => none) none false none).length
      = 3 ∧
    (analyzeTopix500 c9env c9stocks (fun _ => none) none false none).map
      (fun r => r.error) = [none, some "ExternalServiceError", none] ∧
    (analyzeTopix500 c9env c9stocks (fun _ => none) none false none).map
      (fun r => r.properties.length) = [1, 0, 1] := by
  refine ⟨analyzeTopix500_codes, ?_, ?_, ?_⟩
  · rfl
  · rfl
  · rfl

/-! ## Theorems: caches (claim C7) -/

/-- C7: (i) a readable filing-cache entry strictly younger than 30 days is
returned as a hit, unchanged; (ii) an entry at least 30 days old is never
returned — the result is the same as with no cache at all; (iii) a search
that finds nothing never writes the cache; (iv) the cache is only ever
rewritten to a fresh entry holding a found document (only positive results
are cached); (v) a geocode cache entry is returned as a hit and the cache
is left unchanged — geocode entries carry no age at all, so age cannot
affect the answer. -/
theorem C7_cache_policies :
    (∀ (getDocs : ℕ → List Doc) (monthOf : ℕ → ℕ) (ec : String)
      (age : ℤ) (doc : Doc), age < 30 →
      searchAnnualReport getDocs monthOf ec (some ⟨age, some doc⟩)
        = (some doc, some ⟨age, some doc⟩)) ∧
    (∀ (getDocs : ℕ → List Doc) (monthOf : ℕ → ℕ) (ec : String)
      (age : ℤ) (content : Option Doc), 30 ≤ age →
      (searchAnnualReport getDocs monthOf ec (some ⟨age, content⟩)).1
        = (searchAnnualReport getDocs monthOf ec none).1) ∧
    (∀ (getDocs : ℕ → List Doc) (monthOf : ℕ → ℕ) (ec : String)
      (cache : Option FilingCacheEntry),
      (searchAnnualReport getDocs monthOf ec cache).1 = none →
      (searchAnnualReport getDocs monthOf ec cache).2 = cache) ∧
    (∀ (getDocs : ℕ → List Doc) (monthOf : ℕ → ℕ) (ec : String)
      (cache : Option FilingCacheEntry),
      (searchAnnualReport getDocs monthOf ec cache).2 ≠ cache →
      ∃ doc : Doc, (searchAnnualReport getDocs monthOf ec cache).1 = some doc ∧
        (searchAnnualReport getDocs monthOf ec cache).2 = some ⟨0, some doc⟩) ∧
    (∀ (service : String → Option (ℚ × ℚ)) (simplify : String → String)
      (cache : List (String × (ℚ × ℚ))) (address : String) (c : ℚ × ℚ),
      cache.lookup ("geocode_" ++ address) = some c →
      geocodeCached service simplify cache address = (some c, cache)) := by
  refine ⟨?_, ?_, ?_, ?_, ?_⟩
  · intro getDocs monthOf ec age doc h
    simp [searchAnnualReport, h]
  · intro getDocs monthOf ec age content h
    rw [searchAnnualReport, searchAnnualReport]
    have h' : ¬ age < 30 := not_lt.mpr h
    cases hf : findFiling getDocs monthOf ec <;> simp [hf, h']
  · intro getDocs monthOf ec cache h
    rw [searchAnnualReport.eq_def] at h ⊢
    cases hf : findFiling getDocs monthOf ec with
    | some d =>
      simp only [hf] at h ⊢
      cases cache with
      | none => simp at h
      | some entry =>
        by_cases ha : entry.ageDays < 30
        · cases hc : entry.content with
          | some doc => simp [ha, hc]
          | none => simp [ha, hc] at h
        · simp [ha] at h
    | none =>
      simp only [hf] at h ⊢
      cases cache with
      | none => rfl
      | some entry =>
        by_cases ha : entry.ageDays < 30
        · cases hc : entry.content with
          | some doc => simp [ha, hc]
          | none => simp [ha, hc]
        · simp [ha]
  · intro getDocs monthOf ec cache h
    rw [searchAnnualReport.eq_def] at h ⊢
    cases hf : findFiling getDocs monthOf ec with
    | some d =>
      simp only [hf] at h ⊢
      cases cache with
      | none => exact ⟨d, rfl, rfl⟩
      | some entry =>
        by_cases ha : entry.ageDays < 30
        · cases hc : entry.content with
          | some doc => simp [ha, hc] at h
          | none => simp [ha, hc]
        · simp [ha]
    | none =>
      simp only [hf] at h ⊢
      cases cache with
      | none => simp at h
      | some entry =>
        by_cases ha : entry.ageDays < 30
        · cases hc : entry.content with
          | some doc => simp [ha, hc] at h
          | none => simp [ha, hc] at h
        · simp [ha] at h
  · intro service simplify cache address c h
    simp [geocodeCached, h]

/-- A concrete document, listing oracle and cache for the C7 witness. -/
def c7doc : Doc := ⟨"E05041", "S100ABC", "2024-03"⟩

/-- Listing oracle: the document appears at days-ago offset 0. -/
def c7getDocs : ℕ → List Doc := fun d => if d = 0 then [c7doc] else []

theorem C7_witness :
    searchAnnualReport c7getDocs (fun _ => 5) "E05041" (some ⟨5, some c7doc⟩)
      = (some c7doc, some ⟨5, some c7doc⟩) ∧
    (searchAnnualReport c7getDocs (fun _ => 5) "E05041"
        (some ⟨40, some c7doc⟩)).1
      = (searchAnnualReport c7getDocs (fun _ => 5) "E05041" none).1 ∧
    geocodeCached (fun _ => none) id [("geocode_東京都", ((35 : ℚ), (139 : ℚ)))]
        "東京都"
      = (some ((35 : ℚ), (139 : ℚ)),
         [("geocode_東京都", ((35 : ℚ), (139 : ℚ)))]) :=
  ⟨C7_cache_policies.1 c7getDocs (fun _ => 5) "E05041" 5 c7doc (by decide),
   C7_cache_policies.2.1 c7getDocs (fun _ => 5) "E05041" 40 (some c7doc)
     (by decide),
   C7_cache_policies.2.2.2.2 (fun _ => none) id
     [("geocode_東京都", ((35 : ℚ), (139 : ℚ)))] "東京都"
     ((35 : ℚ), (139 : ℚ)) rfl⟩

/-! ## Theorems: price-per-area computation (claim C10) -/

/-- A land trade whose `TradePrice` field raises on conversion. -/
def c10trade : Trade :=
  ⟨some "宅地(土地)", "川崎市", "中原区", .bad, .num 100, "2024第1四半期", "住宅地"⟩

/-- C10: the per-square-meter price computation is total and guarded — a
non-positive area yields `0` instead of dividing, a malformed price or
area field is caught and yields `0` — and a selected nearest observation
can legitimately carry `price_per_sqm = 0` (here: a land trade whose price
field is malformed is still selected as nearest). -/
theorem C10_price_per_sqm_total :
    (∀ (p : RawNum) (q : ℚ), q ≤ 0 → calculatePricePerSqm p (.num q) = 0) ∧
    (∀ a : RawNum, calculatePricePerSqm .bad a = 0) ∧
    (∀ p : RawNum, calculatePricePerSqm p .bad = 0) ∧
    (findNearestTrade (fun _ => some (35, 139)) (fun _ _ => 1) [c10trade]
        ((35 : ℚ), (139 : ℚ)) = some (tradeObs c10trade 1) ∧
      (tradeObs c10trade 1).price_per_sqm = 0) := by
  refine ⟨?_, ?_, ?_, rfl, rfl⟩
  · intro p q h
    cases p with
    | absent => simp [calculatePricePerSqm, not_lt.mpr h]
    | num qq => simp [calculatePricePerSqm, not_lt.mpr h]
    | bad => rfl
  · intro a
    cases a <;> rfl
  · intro p
    cases p <;> rfl

theorem C10_witness :
    calculatePricePerSqm (.num 5) (.num 0) = 0 ∧
    calculatePricePerSqm (.num 5) (.num (-2)) = 0 :=
  ⟨C10_price_per_sqm_total.1 (.num 5) 0 (le_refl 0),
   C10_price_per_sqm_total.1 (.num 5) (-2) (by norm_num)⟩

/-! ## Theorems: market price resolver (claim C6) -/

/-- The accumulator step of the nearest-trade fold, on candidate
(observation, distance) pairs: replace the running best only on a strictly
smaller distance. -/
def selStep (acc : Option (PriceObs × ℚ)) (x : PriceObs × ℚ) :
    Option (PriceObs × ℚ) :=
  match acc with
  | none => some x
  | some pm => if x.2 < pm.2 then some x else acc

/-- The land-only, geocodable candidates of a trade list, as
(observation, distance) pairs in source order. -/
def landCands (g : String → Option (ℚ × ℚ)) (dist : ℚ × ℚ → ℚ × ℚ → ℚ)
    (trades : List Trade) (pt : ℚ × ℚ) : List (PriceObs × ℚ) :=
  trades.filterMap (fun t =>
    if t.ttype = some "宅地(土地)" then
      (g (t.municipality ++ t.districtName)).map
        (fun c => (tradeObs t (dist pt c), dist pt c))
    else none)

/-- The nearest-trade fold over trades equals the selection fold over the
candidate pairs. -/
theorem findNearestTrade_go (g : String → Option (ℚ × ℚ))
    (dist : ℚ × ℚ → ℚ × ℚ → ℚ) (pt : ℚ × ℚ) :
    ∀ (trades : List Trade) (acc : Option (PriceObs × ℚ)),
    trades.foldl (fun acc t =>
      if t.ttype ≠ some "宅地(土地)" then acc
      else
        match g (t.municipality ++ t.districtName) with
        | none => acc
        | some c =>
          let d := dist pt c
          match acc with
          | none => some (tradeObs t d, d)
          | some pm => if d < pm.2 then some (tradeObs t d, d) else acc) acc
      = (landCands g dist trades pt).foldl selStep acc
  | [], acc => by simp [landCands]
  | t :: ts, acc => by
    rw [List.foldl_cons, findNearestTrade_go g dist pt ts]
    by_cases hty : t.ttype = some "宅地(土地)"
    · cases hg : g (t.municipality ++ t.districtName) with
      | none =>
        have hc : landCands g dist (t :: ts) pt = landCands g dist ts pt := by
          simp [landCands, List.filterMap_cons, hty, hg]
        rw [hc]
        congr 1
        simp [hty, hg]
      | some c =>
        have hc : landCands g dist (t :: ts) pt
            = (tradeObs t (dist pt c), dist pt c) :: landCands g dist ts pt := by
          simp [landCands, List.filterMap_cons, hty, hg]
        rw [hc, List.foldl_cons]
        congr 1
        cases acc with
        | none => simp [selStep, hty, hg]
        | some pm => simp [selStep, hty, hg]
    · have hc : landCands g dist (t :: ts) pt = landCands g dist ts pt := by
        simp [landCands, List.filterMap_cons, hty]
      rw [hc]
      congr 1
      simp [hty]

/-- `_find_nearest_trade` is the selection fold over the candidates. -/
theorem findNearestTrade_eq (g : String → Option (ℚ × ℚ))
    (dist : ℚ × ℚ → ℚ × ℚ → ℚ) (trades : List Trade) (pt : ℚ × ℚ) :
    findNearestTrade g dist trades pt
      = ((landCands g dist trades pt).foldl selStep none).map Prod.fst := by
  rw [findNearestTrade]
  rw [findNearestTrade_go g dist pt trades none]

/-- Characterization of the selection fold from a running best `y`: the
result is `y` itself (then `y` is minimal over the rest), or a later
strictly better candidate that beats everything before it and is minimal
over everything after it. -/
theorem selStep_foldl_go :
    ∀ (l : List (PriceObs × ℚ)) (y : PriceObs × ℚ),
    ∃ r, l.foldl selStep (some y) = some r ∧
      ((r = y ∧ ∀ x ∈ l, y.2 ≤ x.2) ∨
       (∃ l₁ l₂, l = l₁ ++ r :: l₂ ∧ r.2 < y.2 ∧
         (∀ x ∈ l₁, r.2 < x.2) ∧ (∀ x ∈ l₂, r.2 ≤ x.2)))
  | [], y => ⟨y, rfl, Or.inl ⟨rfl, by simp⟩⟩
  | z :: zs, y => by
    rw [List.foldl_cons]
    by_cases hzy : z.2 < y.2
    · have hstep : selStep (some y) z = some z := by simp [selStep, hzy]
      rw [hstep]
      obtain ⟨r, hr, hcases⟩ := selStep_foldl_go zs z
      refine ⟨r, hr, Or.inr ?_⟩
      rcases hcases with ⟨rfl, hmin⟩ | ⟨l₁, l₂, hsplit, hrz, hpre, hpost⟩
      · exact ⟨[], zs, by simp, hzy, by simp, hmin⟩
      · exact ⟨z :: l₁, l₂, by rw [hsplit]; rfl, lt_trans hrz hzy,
          by intro x hx
             rcases List.mem_cons.mp hx with rfl | hx'
             · exact hrz
             · exact hpre x hx',
          hpost⟩
    · have hstep : selStep (some y) z = some y := by simp [selStep, hzy]
      rw [hstep]
      obtain ⟨r, hr, hcases⟩ := selStep_foldl_go zs y
      refine ⟨r, hr, ?_⟩
      rcases hcases with ⟨rfl, hmin⟩ | ⟨l₁, l₂, hsplit, hry, hpre, hpost⟩
      · refine Or.inl ⟨rfl, ?_⟩
        intro x hx
        rcases List.mem_cons.mp hx with rfl | hx'
        · exact le_of_not_lt hzy
        · exact hmin x hx'
      · refine Or.inr ⟨z :: l₁, l₂, by rw [hsplit]; rfl, hry, ?_, hpost⟩
        intro x hx
        rcases List.mem_cons.mp hx with rfl | hx'
        · exact lt_of_lt_of_le hry (le_of_not_lt hzy)
        · exact hpre x hx'

/-- The selection fold from an empty accumulator returns the first
candidate attaining the minimum distance: it splits the list into a
strictly-farther prefix and a no-closer suffix. -/
theorem selStep_foldl_split (l : List (PriceObs × ℚ)) (r : PriceObs × ℚ)
    (h : l.foldl selStep none = some r) :
    ∃ l₁ l₂, l = l₁ ++ r :: l₂ ∧ (∀ x ∈ l₁, r.2 < x.2) ∧
      (∀ x ∈ l₂, r.2 ≤ x.2) := by
  cases l with
  | nil => simp at h
  | cons y ys =>
    rw [List.foldl_cons] at h
    have hstep : selStep none y = some y := rfl
    rw [hstep] at h
    obtain ⟨r', hr', hcases⟩ := selStep_foldl_go ys y
    rw [hr'] at h
    injection h with h
    subst h
    rcases hcases with ⟨rfl, hmin⟩ | ⟨l₁, l₂, hsplit, hlt, hpre, hpost⟩
    · exact ⟨[], ys, rfl, by simp, hmin⟩
    · refine ⟨y :: l₁, l₂, by rw [hsplit]; rfl, ?_, hpost⟩
      intro x hx
      rcases List.mem_cons.mp hx with rfl | hx'
      · exact hlt
      · exact hpre x hx'

/-- The selection fold finds something whenever candidates exist. -/
theorem selStep_foldl_isSome (l : List (PriceObs × ℚ)) (hl : l ≠ []) :
    (l.foldl selStep none).isSome := by
  cases l with
  | nil => exact absurd rfl hl
  | cons y ys =>
    rw [List.foldl_cons]
    have hstep : selStep none y = some y := rfl
    rw [hstep]
    obtain ⟨r, hr, _⟩ := selStep_foldl_go ys y
    rw [hr]
    rfl

/-- Splitting the source list of a `filterMap` along a split of its
output. -/
theorem filterMap_eq_append_cons {α β : Type} (f : α → Option β) :
    ∀ (l : List α) (l₁ : List β) (x : β) (l₂ : List β),
    l.filterMap f = l₁ ++ x :: l₂ →
    ∃ p a s, l = p ++ a :: s ∧ f a = some x ∧
      p.filterMap f = l₁ ∧ s.filterMap f = l₂
  | [], l₁, x, l₂, h => by simp at h
  | a :: t, l₁, x, l₂, h => by
    rw [List.filterMap_cons] at h
    cases hfa : f a with
    | none =>
      rw [hfa] at h
      obtain ⟨p, b, s, hsplit, hfb, hp, hs⟩ :=
        filterMap_eq_append_cons f t l₁ x l₂ h
      exact ⟨a :: p, b, s, by rw [hsplit]; rfl, hfb,
        by rw [List.filterMap_cons, hfa]; exact hp, hs⟩
    | some b =>
      rw [hfa] at h
      cases l₁ with
      | nil =>
        simp only [List.nil_append] at h
        injection h with hb ht
        exact ⟨[], a, t, rfl, by rw [hfa, hb], rfl, ht⟩
      | cons c l₁' =>
        rw [List.cons_append] at h
        injection h with hb ht
        obtain ⟨p, d, s, hsplit, hfd, hp, hs⟩ :=
          filterMap_eq_append_cons f t l₁' x l₂ ht
        exact ⟨a :: p, d, s, by rw [hsplit]; rfl, hfd,
          by rw [List.filterMap_cons, hfa, hb, hp], hs⟩

/-- A candidate-producing trade yields exactly its observation pair. -/
theorem landCand_some (g : String → Option (ℚ × ℚ))
    (dist : ℚ × ℚ → ℚ × ℚ → ℚ) (pt : ℚ × ℚ) (t : Trade) (x : PriceObs × ℚ)
    (h : (if t.ttype = some "宅地(土地)" then
        (g (t.municipality ++ t.districtName)).map
          (fun c => (tradeObs t (dist pt c), dist pt c))
      else none) = some x) :
    t.ttype = some "宅地(土地)" ∧
    ∃ c, g (t.municipality ++ t.districtName) = some c ∧
      x = (tradeObs t (dist pt c), dist pt c) := by
  by_cases hty : t.ttype = some "宅地(土地)"
  · rw [if_pos hty] at h
    cases hg : g (t.municipality ++ t.districtName) with
    | none => rw [hg] at h; simp at h
    | some c =>
      rw [hg] at h
      injection h with h
      exact ⟨hty, c, rfl, h.symm⟩
  · rw [if_neg hty] at h
    simp at h

/-- A land-typed, geocodable trade contributes its pair to the candidate
list derived from any trade list containing it. -/
theorem landCand_mem (g : String → Option (ℚ × ℚ))
    (dist : ℚ × ℚ → ℚ × ℚ → ℚ) (pt : ℚ × ℚ) (l : List Trade) (t : Trade)
    (c : ℚ × ℚ) (ht : t ∈ l) (hty : t.ttype = some "宅地(土地)")
    (hg : g (t.municipality ++ t.districtName) = some c) :
    (tradeObs t (dist pt c), dist pt c) ∈ landCands g dist l pt := by
  rw [landCands]
  exact List.mem_filterMap.mpr ⟨t, ht, by rw [if_pos hty, hg]; rfl⟩

/-- C6: the market price resolver.  (1) A selected nearest observation
comes from a land-only (宅地(土地)) trade whose locality geocodes; the
roster splits around it so that every land candidate before it is strictly
farther (ties are won by the first in source order) and every land
candidate after it is no closer (minimum distance).  (2) Whenever any land
candidate exists, an observation is selected.  (3)(4) If the source call
fails or no observation is found, the resolver returns the static regional
average for the estimated region, and (5) a found nearest observation is
returned as is.  (6) Every regional-average entry is tagged with the
fallback provenance "概算平均値", and (7) an unknown region code falls
back to the single global default row ("その他"), so the resolver returns
an observation for every coordinate. -/
theorem C6_nearest_price_resolver (g : String → Option (ℚ × ℚ))
    (dist : ℚ × ℚ → ℚ × ℚ → ℚ) (trades : List Trade) (pt : ℚ × ℚ)
    (api : String → Option (List Trade)) (lat lng : ℚ) (year : ℤ) :
    (∀ obs, findNearestTrade g dist trades pt = some obs →
      ∃ pre t post c, trades = pre ++ t :: post ∧
        t.ttype = some "宅地(土地)" ∧
        g (t.municipality ++ t.districtName) = some c ∧
        obs = tradeObs t (dist pt c) ∧
        (∀ t' c', t' ∈ pre → t'.ttype = some "宅地(土地)" →
          g (t'.municipality ++ t'.districtName) = some c' →
          dist pt c < dist pt c') ∧
        (∀ t' c', t' ∈ post → t'.ttype = some "宅地(土地)" →
          g (t'.municipality ++ t'.districtName) = some c' →
          dist pt c ≤ dist pt c')) ∧
    ((∃ t, t ∈ trades ∧ t.ttype = some "宅地(土地)" ∧
        (g (t.municipality ++ t.districtName)).isSome) →
      (findNearestTrade g dist trades pt).isSome) ∧
    (api (estimatePrefectureCode lat lng) = none →
      searchNearestPrice g dist api lat lng year
        = getPrefectureAverage (estimatePrefectureCode lat lng) year) ∧
    (∀ ts, api (estimatePrefectureCode lat lng) = some ts →
      findNearestTrade g dist ts (lat, lng) = none →
      searchNearestPrice g dist api lat lng year
        = getPrefectureAverage (estimatePrefectureCode lat lng) year) ∧
    (∀ ts obs, api (estimatePrefectureCode lat lng) = some ts →
      findNearestTrade g dist ts (lat, lng) = some obs →
      searchNearestPrice g dist api lat lng year = obs) ∧
    (∀ code : String, (getPrefectureAverage code year).source = "概算平均値") ∧
    (∀ code : String, code ∉ prefectureAverages.map Prod.fst →
      getPrefectureAverage code year
        = { address := "その他", price_per_sqm := 300000, distance_km := none,
            survey_year := .int year, land_use := "商業地（都道府県平均）",
            source := "概算平均値" }) := by
  refine ⟨?_, ?_, ?_, ?_, ?_, ?_, ?_⟩
  · intro obs hobs
    rw [findNearestTrade_eq] at hobs
    obtain ⟨r, hr, hr1⟩ := Option.map_eq_some'.mp hobs
    obtain ⟨l₁, l₂, hsplit, hpre, hpost⟩ := selStep_foldl_split _ r hr
    rw [landCands] at hsplit
    obtain ⟨p, a, s, htr, hfa, hp, hs⟩ :=
      filterMap_eq_append_cons _ trades l₁ r l₂ hsplit
    obtain ⟨hty, c, hg, rfl⟩ := landCand_some g dist pt a r hfa
    refine ⟨p, a, s, c, htr, hty, hg, hr1 ▸ rfl, ?_, ?_⟩
    · intro t' c' ht' hty' hg'
      have : (tradeObs t' (dist pt c'), dist pt c') ∈ l₁ := by
        rw [← hp]
        exact List.mem_filterMap.mpr ⟨t', ht', by rw [if_pos hty', hg']; rfl⟩
      exact hpre _ this
    · intro t' c' ht' hty' hg'
      have : (tradeObs t' (dist pt c'), dist pt c') ∈ l₂ := by
        rw [← hs]
        exact List.mem_filterMap.mpr ⟨t', ht', by rw [if_pos hty', hg']; rfl⟩
      exact hpost _ this
  · rintro ⟨t, ht, hty, hg⟩
    obtain ⟨c, hc⟩ := Option.isSome_iff_exists.mp hg
    have hmem := landCand_mem g dist pt trades t c ht hty hc
    rw [findNearestTrade_eq]
    have hne : landCands g dist trades pt ≠ [] := List.ne_nil_of_mem hmem
    have := selStep_foldl_isSome _ hne
    obtain ⟨r, hr⟩ := Option.isSome_iff_exists.mp this
    rw [hr]
    rfl
  · intro h
    simp [searchNearestPrice, h]
  · intro ts h1 h2
    simp [searchNearestPrice, h1, h2]
  · intro ts obs h1 h2
    simp [searchNearestPrice, h1, h2]
  · intro code
    rfl
  · intro code hcode
    have hlook : prefectureAverages.lookup code = none := by
      rw [List.lookup_eq_none_iff]
      intro a hmem
      simp only [bne_iff_ne, ne_eq]
      intro he
      subst he
      exact hcode (List.mem_map_of_mem Prod.fst hmem)
    rw [getPrefectureAverage, hlook]
    rfl

/-- A concrete land trade for the C6 witness. -/
def c6trade : Trade :=
  ⟨some "宅地(土地)", "横浜市", "中区", .num 50000000, .num 100,
   "2024第1四半期", "住宅地"⟩

theorem C6_witness :
    searchNearestPrice (fun _ => none) (fun _ _ => 1) (fun _ => none) 0 0 2024
      = getPrefectureAverage (estimatePrefectureCode 0 0) 2024 ∧
    (getPrefectureAverage "99" 2024).source = "概算平均値" ∧
    (findNearestTrade (fun _ => some (35, 139)) (fun _ _ => 1) [c6trade]
      ((0 : ℚ), (0 : ℚ))).isSome :=
  ⟨(C6_nearest_price_resolver (fun _ => none) (fun _ _ => 1) [] (0, 0)
      (fun _ => none) 0 0 2024).2.2.1 rfl,
   (C6_nearest_price_resolver (fun _ => none) (fun _ _ => 1) [] (0, 0)
      (fun _ => none) 0 0 2024).2.2.2.2.2.1 "99",
   (C6_nearest_price_resolver (fun _ => some (35, 139)) (fun _ _ => 1)
      [c6trade] ((0 : ℚ), (0 : ℚ)) (fun _ => none) 0 0 2024).2.1
     ⟨c6trade, List.mem_cons_self c6trade [], rfl, rfl⟩⟩

end RealEstate
